import Mathlib

/-!
Verification development for `codebase/data/datamodule.py`.

The file shallowly embeds the module: the custom transform `CenterCropMinXY`
acts on explicit (channel, height, width) tensors; the `DataModule` class is a
record of its stored constructor fields; `__init__`, `sanity_check`, `setup`,
`prepare_data` and the three dataloader methods become Lean functions.  Calls
into torchvision are modelled symbolically: a dataset constructed by `setup` is
a `Dataset` value recording exactly the arguments the Python code passes
(root, split selector, transform chain), and `prepare_data` returns the list of
download calls it issues.  Python `int()` on an exact rational is truncation
toward zero (`pyInt`), and Python `/` on integers is exact division in `ℚ`.
-/

/-- Python `int(q)` for an exact rational `q`: truncation toward zero. -/
def pyInt (q : ℚ) : ℤ := Int.tdiv q.num (q.den : ℤ)

/-- Length of the Python slice `a[start:stop]` (with `0 ≤ start ≤ stop`) of a
sequence of length `len`: both endpoints are clamped to `len`. -/
def sliceLen (start stop len : ℕ) : ℕ := min stop len - min start len

/-- An image tensor of shape `(channels, height, width)` with rational pixel
values, the shape a `torch.Tensor` has inside the transform pipeline. -/
@[ext]
structure Tensor3 where
  channels : ℕ
  height : ℕ
  width : ℕ
  pixel : ℕ → ℕ → ℕ → ℚ

/-- `CenterCropMinXY.__call__`: with `min_dim = min(h, w)`,
`top = (h - min_dim) // 2`, `left = (w - min_dim) // 2`, it returns
`image[:, top : top + min_dim, left : left + min_dim]`. -/
def centerCropMinXY (image : Tensor3) : Tensor3 :=
  let min_dim := min image.height image.width
  let top := (image.height - min_dim) / 2
  let lft := (image.width - min_dim) / 2
  { channels := image.channels
    height := sliceLen top (top + min_dim) image.height
    width := sliceLen lft (lft + min_dim) image.width
    pixel := fun c y x => image.pixel c (top + y) (lft + x) }

/-- One entry of a `transforms.Compose` chain, recording the arguments the
Python code passes to the torchvision transform constructors. -/
inductive Transform where
  | toTensor : Transform
  | normalize (mean std : List ℚ) : Transform
  | centerCropMinXY : Transform
  | resize (size : ℕ) (antialias : Bool) : Transform
  | randomHorizontalFlip (p : ℚ) : Transform
  deriving DecidableEq, Repr

/-- The fields `DataModule.__init__` stores on `self` (`data_dir` as a plain
path string; `batch_size` after the device-count division). -/
structure DataModule where
  name : String
  data_dir : String
  img_size : ℕ
  img_channels : ℕ
  batch_size : ℤ
  num_workers : ℕ
  pin_memory : Bool
  persistent_workers : Bool
  train_val_split : ℚ
  download : Bool
  deriving DecidableEq, Repr

/-- `self.transforms["train"]`: ToTensor, Normalize with mean and std
`[0.5] * img_channels`, CenterCropMinXY, Resize(img_size, antialias=True),
RandomHorizontalFlip(0.5). -/
def DataModule.transformTrain (m : DataModule) : List Transform :=
  [Transform.toTensor,
   Transform.normalize (List.replicate m.img_channels (1/2))
     (List.replicate m.img_channels (1/2)),
   Transform.centerCropMinXY,
   Transform.resize m.img_size true,
   Transform.randomHorizontalFlip (1/2)]

/-- `self.transforms["val"]`: the same chain as `"train"` but with no final
RandomHorizontalFlip. -/
def DataModule.transformVal (m : DataModule) : List Transform :=
  [Transform.toTensor,
   Transform.normalize (List.replicate m.img_channels (1/2))
     (List.replicate m.img_channels (1/2)),
   Transform.centerCropMinXY,
   Transform.resize m.img_size true]

/-- `self.transforms["test"]`: identical to the `"val"` chain. -/
def DataModule.transformTest (m : DataModule) : List Transform :=
  [Transform.toTensor,
   Transform.normalize (List.replicate m.img_channels (1/2))
     (List.replicate m.img_channels (1/2)),
   Transform.centerCropMinXY,
   Transform.resize m.img_size true]

/-- `DataModule.sanity_check`: `True` when the asserts pass, `False` when an
`AssertionError` is raised.  MNIST demands 1 channel, SEN12MSCR demands 2,
every other name demands 3. -/
def DataModule.sanityCheck (m : DataModule) : Bool :=
  if m.name = "MNIST" then m.img_channels == 1
  else if m.name = "SEN12MSCR" then m.img_channels == 2
  else m.img_channels == 3

/-- The stored batch size:
`int(batch_size / (torch.cuda.device_count() if torch.cuda.device_count() > 1 else 1))`,
with Python true division taken exactly in `ℚ`. -/
def effectiveBatchSize (batch_size : ℤ) (cudaDeviceCount : ℕ) : ℤ :=
  pyInt ((batch_size : ℚ) / (if cudaDeviceCount > 1 then (cudaDeviceCount : ℚ) else 1))

/-- The keyword arguments of `DataModule.__init__` (before any processing). -/
structure InitArgs where
  name : String
  img_size : ℕ
  img_channels : ℕ
  data_dir : String
  batch_size : ℤ
  num_workers : ℕ
  pin_memory : Bool
  persistent_workers : Bool
  train_val_split : ℚ
  download : Bool
  deriving DecidableEq, Repr

/-- `DataModule.__init__`: store the fields (dividing `batch_size` by the CUDA
device count when more than one device is present), then run `sanity_check`;
a failed assert raises `AssertionError`, modelled as `Except.error`. -/
def DataModule.init (a : InitArgs) (cudaDeviceCount : ℕ) : Except String DataModule :=
  let m : DataModule :=
    { name := a.name
      data_dir := a.data_dir
      img_size := a.img_size
      img_channels := a.img_channels
      batch_size := effectiveBatchSize a.batch_size cudaDeviceCount
      num_workers := a.num_workers
      pin_memory := a.pin_memory
      persistent_workers := a.persistent_workers
      train_val_split := a.train_val_split
      download := a.download }
  if m.sanityCheck then Except.ok m else Except.error "AssertionError"

/-- A dataset object as `setup` builds it: each constructor records the
arguments the Python code passes to the corresponding dataset class.
`subset base i lengths` is the `i`-th part of `random_split(base, lengths)`. -/
inductive Dataset where
  | mnist (root : String) (train : Bool) (transform : List Transform) : Dataset
  | subset (base : Dataset) (index : ℕ) (lengths : List ℤ) : Dataset
  | lsun (root : String) (classes : List String) (transform : List Transform) : Dataset
  | celebA (root : String) (split : String) (target_type : String)
      (transform : List Transform) : Dataset
  | flowers102 (root : String) (split : String) (transform : List Transform) : Dataset
  | sen12mscr (root : String) (split : String) (transform : List Transform) : Dataset
  deriving DecidableEq, Repr

/-- Which dataset family a dataset object belongs to, named by the dispatch
key that constructs it; a `random_split` part belongs to its base's family. -/
def Dataset.family : Dataset → String
  | Dataset.mnist _ _ _ => "MNIST"
  | Dataset.subset base _ _ => base.family
  | Dataset.lsun _ _ _ => "LSUN"
  | Dataset.celebA _ _ _ _ => "CelebA"
  | Dataset.flowers102 _ _ _ => "Flowers102"
  | Dataset.sen12mscr _ _ _ => "SEN12MSCR"

/-- The underlying data split of a dataset object: the dataset with its
transform chain erased, so that two objects agree here exactly when they draw
from the same slice of data. -/
def Dataset.underlyingSplit : Dataset → Dataset
  | Dataset.mnist root train _ => Dataset.mnist root train []
  | Dataset.subset base i lengths => Dataset.subset base.underlyingSplit i lengths
  | Dataset.lsun root classes _ => Dataset.lsun root classes []
  | Dataset.celebA root split tt _ => Dataset.celebA root split tt []
  | Dataset.flowers102 root split _ => Dataset.flowers102 root split []
  | Dataset.sen12mscr root split _ => Dataset.sen12mscr root split []

/-- `num_train = int(len(full_train_dataset) * self.train_val_split)`. -/
def num_train (len : ℕ) (train_val_split : ℚ) : ℤ :=
  pyInt ((len : ℚ) * train_val_split)

/-- `num_val = len(full_train_dataset) - num_train`. -/
def num_val (len : ℕ) (train_val_split : ℚ) : ℤ :=
  (len : ℤ) - num_train len train_val_split

/-- The three dataset attributes `setup` assigns. -/
structure SetupState where
  train_dataset : Dataset
  val_dataset : Dataset
  test_dataset : Dataset
  deriving DecidableEq, Repr

/-- `DataModule.setup`: dispatch on `self.name`; `mnistTrainLen` stands for
`len(full_train_dataset)` in the MNIST branch.  A name outside the dispatch
table assigns none of the three dataset attributes, modelled as `none`. -/
def DataModule.setup (m : DataModule) (mnistTrainLen : ℕ) : Option SetupState :=
  if m.name = "MNIST" then
    let full_train_dataset := Dataset.mnist m.data_dir true m.transformTrain
    let lengths := [num_train mnistTrainLen m.train_val_split,
                    num_val mnistTrainLen m.train_val_split]
    some { train_dataset := Dataset.subset full_train_dataset 0 lengths
           val_dataset := Dataset.subset full_train_dataset 1 lengths
           test_dataset := Dataset.mnist m.data_dir false m.transformTest }
  else if m.name = "LSUN" then
    let classes := ["bedroom"]
    let train_classes := classes.map fun sub_class => sub_class ++ "_train"
    let val_classes := classes.map fun sub_class => sub_class ++ "_val"
    let test_classes := classes.map fun sub_class => sub_class ++ "_val"
    some { train_dataset := Dataset.lsun (m.data_dir ++ "/LSUN") train_classes m.transformTrain
           val_dataset := Dataset.lsun (m.data_dir ++ "/LSUN") val_classes m.transformVal
           test_dataset := Dataset.lsun (m.data_dir ++ "/LSUN") test_classes m.transformTest }
  else if m.name = "CelebA" then
    some { train_dataset := Dataset.celebA m.data_dir "train" "attr" m.transformTrain
           val_dataset := Dataset.celebA m.data_dir "valid" "attr" m.transformVal
           test_dataset := Dataset.celebA m.data_dir "test" "attr" m.transformTest }
  else if m.name = "Flowers102" then
    some { train_dataset := Dataset.flowers102 m.data_dir "train" m.transformTrain
           val_dataset := Dataset.flowers102 m.data_dir "val" m.transformVal
           test_dataset := Dataset.flowers102 m.data_dir "test" m.transformTest }
  else if m.name = "SEN12MSCR" then
    some { train_dataset := Dataset.sen12mscr m.data_dir "train" m.transformTrain
           val_dataset := Dataset.sen12mscr m.data_dir "val" m.transformVal
           test_dataset := Dataset.sen12mscr m.data_dir "test" m.transformTest }
  else none

/-- The dataset names `setup` dispatches on. -/
def supportedNames : List String := ["MNIST", "LSUN", "CelebA", "Flowers102", "SEN12MSCR"]

/-- One torchvision dataset instantiation performed by `prepare_data`,
recording the arguments of the call that can download data. -/
inductive DownloadCall where
  | mnist (root : String) (train : Bool) (download : Bool) : DownloadCall
  | celebA (root : String) (split : String) (download : Bool)
      (target_type : String) : DownloadCall
  | flowers102 (root : String) (split : String) (download : Bool) : DownloadCall
  deriving DecidableEq, Repr

/-- `DataModule.prepare_data`: the list of dataset-constructor calls it makes,
in order.  Only the `MNIST`, `CelebA` and `Flowers102` branches exist; any
other name falls through and does nothing. -/
def DataModule.prepare_data (m : DataModule) : List DownloadCall :=
  if m.name = "MNIST" then
    [DownloadCall.mnist m.data_dir true m.download,
     DownloadCall.mnist m.data_dir false m.download]
  else if m.name = "CelebA" then
    ["train", "valid", "test"].map fun split =>
      DownloadCall.celebA m.data_dir split m.download "attr"
  else if m.name = "Flowers102" then
    ["train", "val", "test"].map fun split =>
      DownloadCall.flowers102 m.data_dir split m.download
  else []

/-- The arguments a dataloader method passes to `torch.utils.data.DataLoader`.
`shuffle` is `False` by default in PyTorch when the call omits it. -/
structure DataLoaderArgs where
  dataset : Dataset
  batch_size : ℤ
  num_workers : ℕ
  pin_memory : Bool
  persistent_workers : Bool
  shuffle : Bool
  deriving DecidableEq, Repr

/-- `DataModule.train_dataloader`, given the state `setup` produced. -/
def DataModule.train_dataloader (m : DataModule) (s : SetupState) : DataLoaderArgs :=
  { dataset := s.train_dataset
    batch_size := m.batch_size
    num_workers := m.num_workers
    pin_memory := m.pin_memory
    persistent_workers := m.persistent_workers
    shuffle := true }

/-- `DataModule.val_dataloader`; the call omits `shuffle`, so it is `False`. -/
def DataModule.val_dataloader (m : DataModule) (s : SetupState) : DataLoaderArgs :=
  { dataset := s.val_dataset
    batch_size := m.batch_size
    num_workers := m.num_workers
    pin_memory := m.pin_memory
    persistent_workers := m.persistent_workers
    shuffle := false }

/-- `DataModule.test_dataloader`; the call omits `shuffle`, so it is `False`. -/
def DataModule.test_dataloader (m : DataModule) (s : SetupState) : DataLoaderArgs :=
  { dataset := s.test_dataset
    batch_size := m.batch_size
    num_workers := m.num_workers
    pin_memory := m.pin_memory
    persistent_workers := m.persistent_workers
    shuffle := false }

/-- The channel count the `sanity_check` asserts demand for a dataset name:
1 for MNIST, 2 for SEN12MSCR, 3 for every other name. -/
def requiredChannels (name : String) : ℕ :=
  if name = "MNIST" then 1 else if name = "SEN12MSCR" then 2 else 3

/-- The mean/std pair of the first `Normalize` entry of a transform chain. -/
def normalizeParams : List Transform → Option (List ℚ × List ℚ)
  | [] => none
  | Transform.normalize mean std :: _ => some (mean, std)
  | _ :: ts => normalizeParams ts

/-- Claim C5 as stated: the normalization parameters are specific to the
selected dataset, distinguishing any two validly configured datasets with
different names (not merely reflecting the shared channel count). -/
def normalizationIsDatasetSpecific : Prop :=
  ∀ m m' : DataModule, m.sanityCheck → m'.sanityCheck →
    m.img_size = m'.img_size → m.name ≠ m'.name →
    normalizeParams m.transformTrain ≠ normalizeParams m'.transformTrain

/-- Claim C6 as stated: for every supported configuration, the three dataset
attributes assigned by `setup` draw from pairwise distinct underlying splits. -/
def splitsArePairwiseDistinct : Prop :=
  ∀ (m : DataModule) (len : ℕ) (s : SetupState), m.setup len = some s →
    s.train_dataset.underlyingSplit ≠ s.val_dataset.underlyingSplit ∧
    s.train_dataset.underlyingSplit ≠ s.test_dataset.underlyingSplit ∧
    s.val_dataset.underlyingSplit ≠ s.test_dataset.underlyingSplit

/-- A validly configured CelebA module (3 channels), used for evaluation. -/
def celebaModule : DataModule :=
  { name := "CelebA", data_dir := "datasets", img_size := 64, img_channels := 3
    batch_size := 32, num_workers := 0, pin_memory := true
    persistent_workers := true, train_val_split := 4/5, download := true }

/-- A validly configured LSUN module (3 channels), used for evaluation. -/
def lsunModule : DataModule :=
  { name := "LSUN", data_dir := "datasets", img_size := 64, img_channels := 3
    batch_size := 32, num_workers := 0, pin_memory := true
    persistent_workers := true, train_val_split := 4/5, download := true }

/-- A validly configured MNIST module (1 channel), used for evaluation. -/
def mnistModule : DataModule :=
  { name := "MNIST", data_dir := "datasets", img_size := 28, img_channels := 1
    batch_size := 32, num_workers := 0, pin_memory := true
    persistent_workers := true, train_val_split := 4/5, download := true }

/-- A module with a name outside the dispatch table, used for evaluation. -/
def unknownModule : DataModule :=
  { name := "CIFAR10", data_dir := "datasets", img_size := 32, img_channels := 3
    batch_size := 32, num_workers := 0, pin_memory := true
    persistent_workers := true, train_val_split := 4/5, download := true }

/-- The state `setup` produces for `celebaModule`. -/
def celebaSetupState : SetupState :=
  { train_dataset := Dataset.celebA "datasets" "train" "attr" celebaModule.transformTrain
    val_dataset := Dataset.celebA "datasets" "valid" "attr" celebaModule.transformVal
    test_dataset := Dataset.celebA "datasets" "test" "attr" celebaModule.transformTest }

/-- A concrete already-square 2×2 single-channel image, used for evaluation. -/
def sampleImage : Tensor3 :=
  { channels := 1, height := 2, width := 2, pixel := fun _ _ _ => 0 }

/-- `pyInt` agrees with the floor on non-negative rationals. -/
theorem pyInt_eq_floor {q : ℚ} (h : 0 ≤ q) : pyInt q = ⌊q⌋ := by
  rw [Rat.floor_def, pyInt, Int.tdiv_eq_ediv (Rat.num_nonneg.mpr h) (by positivity)]

/-- C1: `DataModule.__init__` raises an `AssertionError` (via `sanity_check`)
if and only if `img_channels` differs from the value the dataset name demands
(1 for MNIST, 2 for SEN12MSCR, 3 otherwise); when it matches, construction
completes without error. -/
theorem C1_init_sanity_check (a : InitArgs) (d : ℕ) :
    ((∃ e, DataModule.init a d = Except.error e) ↔
      a.img_channels ≠ requiredChannels a.name) ∧
    ((∃ m, DataModule.init a d = Except.ok m) ↔
      a.img_channels = requiredChannels a.name) := by
  unfold DataModule.init DataModule.sanityCheck requiredChannels
  by_cases h1 : a.name = "MNIST" <;> by_cases h2 : a.name = "SEN12MSCR" <;>
    by_cases h3 : a.img_channels = 1 <;> by_cases h4 : a.img_channels = 2 <;>
    by_cases h5 : a.img_channels = 3 <;> simp_all

/-- C10: the stored batch size is `batch_size` unchanged when the CUDA device
count is 0 or 1, and is the truncation (here: floor, as `batch_size` is
positive) of `batch_size / device_count` when more than one device is
present. -/
theorem C10_effective_batch_size (bs : ℤ) (d : ℕ) :
    (d ≤ 1 → effectiveBatchSize bs d = bs) ∧
    (0 < bs → 1 < d → effectiveBatchSize bs d = ⌊(bs : ℚ) / (d : ℚ)⌋) := by
  constructor
  · intro hd
    have hgt : ¬ d > 1 := by omega
    simp [effectiveBatchSize, hgt, pyInt, Rat.num_intCast, Rat.den_intCast, Int.tdiv_one]
  · intro hbs hd
    rw [effectiveBatchSize, if_pos hd, pyInt_eq_floor]
    apply div_nonneg
    · exact_mod_cast hbs.le
    · positivity

/-- C10 witness: with batch size 7, zero devices leave it unchanged and two
devices store `⌊7/2⌋`. -/
theorem C10_effective_batch_size_witness :
    effectiveBatchSize 7 0 = 7 ∧
    effectiveBatchSize 7 2 = ⌊((7 : ℤ) : ℚ) / ((2 : ℕ) : ℚ)⌋ :=
  ⟨(C10_effective_batch_size 7 0).1 (by norm_num),
   (C10_effective_batch_size 7 2).2 (by norm_num) (by norm_num)⟩

/-- C2: `setup` dispatches solely on the exact dataset name: it assigns
datasets exactly for the five supported names, the three assigned datasets
belong to the family named by the dispatch key, and every other name assigns
no datasets at all. -/
theorem C2_setup_dispatch (m : DataModule) (len : ℕ) :
    ((m.setup len).isSome ↔ m.name ∈ supportedNames) ∧
    (∀ s, m.setup len = some s →
      s.train_dataset.family = m.name ∧ s.val_dataset.family = m.name ∧
      s.test_dataset.family = m.name) := by
  unfold DataModule.setup supportedNames
  by_cases h1 : m.name = "MNIST" <;> by_cases h2 : m.name = "LSUN" <;>
    by_cases h3 : m.name = "CelebA" <;> by_cases h4 : m.name = "Flowers102" <;>
    by_cases h5 : m.name = "SEN12MSCR" <;>
    simp_all [Dataset.family]

/-- C2 witness: the CelebA configuration receives three CelebA-family
datasets from `setup`. -/
theorem C2_setup_dispatch_witness :
    celebaSetupState.train_dataset.family = celebaModule.name ∧
    celebaSetupState.val_dataset.family = celebaModule.name ∧
    celebaSetupState.test_dataset.family = celebaModule.name :=
  (C2_setup_dispatch celebaModule 0).2 celebaSetupState rfl

/-- C3: for MNIST, `setup` splits the full training set of length `len` into
parts of sizes `num_train = int(len * train_val_split)` and
`num_val = len - num_train`; for `train_val_split ∈ [0, 1]` the train size is
`⌊len * train_val_split⌋`, both sizes are non-negative, and they sum to
`len`. -/
theorem C3_mnist_split (m : DataModule) (len : ℕ) (hname : m.name = "MNIST")
    (h0 : 0 ≤ m.train_val_split) (h1 : m.train_val_split ≤ 1) :
    m.setup len = some
      { train_dataset := Dataset.subset (Dataset.mnist m.data_dir true m.transformTrain) 0
          [num_train len m.train_val_split, num_val len m.train_val_split]
        val_dataset := Dataset.subset (Dataset.mnist m.data_dir true m.transformTrain) 1
          [num_train len m.train_val_split, num_val len m.train_val_split]
        test_dataset := Dataset.mnist m.data_dir false m.transformTest } ∧
    num_train len m.train_val_split = ⌊(len : ℚ) * m.train_val_split⌋ ∧
    0 ≤ num_train len m.train_val_split ∧
    0 ≤ num_val len m.train_val_split ∧
    num_train len m.train_val_split + num_val len m.train_val_split = (len : ℤ) := by
  have hmul0 : 0 ≤ (len : ℚ) * m.train_val_split := mul_nonneg (by positivity) h0
  have hfl : num_train len m.train_val_split = ⌊(len : ℚ) * m.train_val_split⌋ :=
    pyInt_eq_floor hmul0
  have hle : num_train len m.train_val_split ≤ (len : ℤ) := by
    rw [hfl]
    calc ⌊(len : ℚ) * m.train_val_split⌋ ≤ ⌊((len : ℕ) : ℚ)⌋ :=
          Int.floor_le_floor (mul_le_of_le_one_right (by positivity) h1)
      _ = (len : ℤ) := Int.floor_natCast len
  refine ⟨by simp [DataModule.setup, hname], hfl, ?_, ?_, ?_⟩
  · rw [hfl]; exact Int.floor_nonneg.mpr hmul0
  · unfold num_val; omega
  · unfold num_val; omega

/-- C3 witness: the MNIST configuration with split ratio 4/5 partitions a
length-10 training set into sizes summing to 10. -/
theorem C3_mnist_split_witness :
    num_train 10 mnistModule.train_val_split + num_val 10 mnistModule.train_val_split
      = (10 : ℤ) :=
  (C3_mnist_split mnistModule 10 rfl (by norm_num [mnistModule])
    (by norm_num [mnistModule])).2.2.2.2

/-- C4: every configuration gets the fixed train chain ToTensor, Normalize,
CenterCropMinXY, Resize(img_size), RandomHorizontalFlip(0.5); the val and
test chains are that chain without the final flip; and the chains do not
vary with the dataset name (they depend only on `img_channels` and
`img_size`). -/
theorem C4_transform_chain (m m' : DataModule) :
    m.transformTrain =
      [Transform.toTensor,
       Transform.normalize (List.replicate m.img_channels (1/2))
         (List.replicate m.img_channels (1/2)),
       Transform.centerCropMinXY,
       Transform.resize m.img_size true,
       Transform.randomHorizontalFlip (1/2)] ∧
    m.transformTrain = m.transformVal ++ [Transform.randomHorizontalFlip (1/2)] ∧
    m.transformTest = m.transformVal ∧
    (m.img_channels = m'.img_channels → m.img_size = m'.img_size →
      m.transformTrain = m'.transformTrain ∧ m.transformVal = m'.transformVal ∧
      m.transformTest = m'.transformTest) := by
  refine ⟨rfl, rfl, rfl, fun hc hs => ?_⟩
  unfold DataModule.transformTrain DataModule.transformVal DataModule.transformTest
  rw [hc, hs]
  exact ⟨rfl, rfl, rfl⟩

/-- C4 witness: the CelebA and LSUN configurations (same channels and size,
different names) share all three transform chains. -/
theorem C4_transform_chain_witness :
    celebaModule.transformTrain = lsunModule.transformTrain ∧
    celebaModule.transformVal = lsunModule.transformVal ∧
    celebaModule.transformTest = lsunModule.transformTest :=
  (C4_transform_chain celebaModule lsunModule).2.2.2 rfl rfl

/-- C5 counterexample: the normalization is not dataset-specific — the
validly configured CelebA and LSUN modules have different names but exactly
the same normalization parameters, `[0.5] * 3` for both mean and std. -/
theorem C5_counterexample : ¬ normalizationIsDatasetSpecific := by
  intro h
  exact h celebaModule lsunModule (by decide) (by decide) rfl (by decide) rfl

/-- C5 amended: the normalization applied is determined solely by
`img_channels` — mean and std are both `[0.5] * img_channels` in the train,
val and test chains of every configuration, so any two configurations with
the same channel count share the same normalization regardless of name. -/
theorem C5_amended_normalization (m m' : DataModule) :
    normalizeParams m.transformTrain =
      some (List.replicate m.img_channels (1/2), List.replicate m.img_channels (1/2)) ∧
    normalizeParams m.transformVal =
      some (List.replicate m.img_channels (1/2), List.replicate m.img_channels (1/2)) ∧
    normalizeParams m.transformTest =
      some (List.replicate m.img_channels (1/2), List.replicate m.img_channels (1/2)) ∧
    (m.img_channels = m'.img_channels →
      normalizeParams m.transformTrain = normalizeParams m'.transformTrain) := by
  refine ⟨rfl, rfl, rfl, fun hc => ?_⟩
  unfold DataModule.transformTrain
  rw [hc]
  rfl

/-- C5 amended witness: the CelebA and LSUN modules share the channel count 3
and hence identical normalization parameters. -/
theorem C5_amended_normalization_witness :
    normalizeParams celebaModule.transformTrain =
      normalizeParams lsunModule.transformTrain :=
  (C5_amended_normalization celebaModule lsunModule).2.2.2 rfl

/-- C6 counterexample: the LSUN branch of `setup` reuses the `bedroom_val`
split for both the validation and the test dataset, so the three roles are
not drawn from pairwise distinct splits. -/
theorem C6_counterexample : ¬ splitsArePairwiseDistinct := by
  intro h
  obtain ⟨-, -, hvt⟩ := h lsunModule 0
    { train_dataset := Dataset.lsun (lsunModule.data_dir ++ "/LSUN")
        (["bedroom"].map fun sub_class => sub_class ++ "_train") lsunModule.transformTrain
      val_dataset := Dataset.lsun (lsunModule.data_dir ++ "/LSUN")
        (["bedroom"].map fun sub_class => sub_class ++ "_val") lsunModule.transformVal
      test_dataset := Dataset.lsun (lsunModule.data_dir ++ "/LSUN")
        (["bedroom"].map fun sub_class => sub_class ++ "_val") lsunModule.transformTest }
    rfl
  exact hvt rfl

/-- C6 amended: for every supported name other than LSUN the three datasets
assigned by `setup` draw from pairwise distinct underlying splits; for LSUN
the train split is distinct from the other two, but the validation and test
datasets share the same underlying split. -/
theorem C6_amended_splits (m : DataModule) (len : ℕ) (s : SetupState)
    (h : m.setup len = some s) :
    (m.name ≠ "LSUN" →
      s.train_dataset.underlyingSplit ≠ s.val_dataset.underlyingSplit ∧
      s.train_dataset.underlyingSplit ≠ s.test_dataset.underlyingSplit ∧
      s.val_dataset.underlyingSplit ≠ s.test_dataset.underlyingSplit) ∧
    (m.name = "LSUN" →
      s.train_dataset.underlyingSplit ≠ s.val_dataset.underlyingSplit ∧
      s.train_dataset.underlyingSplit ≠ s.test_dataset.underlyingSplit ∧
      s.val_dataset.underlyingSplit = s.test_dataset.underlyingSplit) := by
  unfold DataModule.setup at h
  by_cases h1 : m.name = "MNIST" <;> by_cases h2 : m.name = "LSUN" <;>
    by_cases h3 : m.name = "CelebA" <;> by_cases h4 : m.name = "Flowers102" <;>
    by_cases h5 : m.name = "SEN12MSCR" <;>
    simp_all [Dataset.underlyingSplit] <;>
    (obtain rfl := h.symm) <;>
    simp [Dataset.underlyingSplit]

/-- C6 amended witness: the CelebA configuration receives pairwise distinct
train, valid and test splits. -/
theorem C6_amended_splits_witness :
    celebaSetupState.train_dataset.underlyingSplit ≠
      celebaSetupState.val_dataset.underlyingSplit ∧
    celebaSetupState.train_dataset.underlyingSplit ≠
      celebaSetupState.test_dataset.underlyingSplit ∧
    celebaSetupState.val_dataset.underlyingSplit ≠
      celebaSetupState.test_dataset.underlyingSplit :=
  (C6_amended_splits celebaModule 0 celebaSetupState rfl).1 (by decide)

/-- C7: each dataloader method wraps its corresponding dataset with the
module's `batch_size`, `num_workers`, `pin_memory` and `persistent_workers`
settings; only the training dataloader passes `shuffle=True`, the other two
omit `shuffle` and hence iterate in dataset order. -/
theorem C7_dataloaders (m : DataModule) (s : SetupState) :
    m.train_dataloader s =
      { dataset := s.train_dataset, batch_size := m.batch_size
        num_workers := m.num_workers, pin_memory := m.pin_memory
        persistent_workers := m.persistent_workers, shuffle := true } ∧
    m.val_dataloader s =
      { dataset := s.val_dataset, batch_size := m.batch_size
        num_workers := m.num_workers, pin_memory := m.pin_memory
        persistent_workers := m.persistent_workers, shuffle := false } ∧
    m.test_dataloader s =
      { dataset := s.test_dataset, batch_size := m.batch_size
        num_workers := m.num_workers, pin_memory := m.pin_memory
        persistent_workers := m.persistent_workers, shuffle := false } :=
  ⟨rfl, rfl, rfl⟩

/-- C8: `prepare_data` issues download calls exactly when the name is MNIST
(both train and test sets), CelebA (train/valid/test) or Flowers102
(train/val/test); for every other name it performs no action. -/
theorem C8_prepare_data (m : DataModule) :
    (m.prepare_data = [] ↔ m.name ∉ (["MNIST", "CelebA", "Flowers102"] : List String)) ∧
    (m.name = "MNIST" → m.prepare_data =
      [DownloadCall.mnist m.data_dir true m.download,
       DownloadCall.mnist m.data_dir false m.download]) ∧
    (m.name = "CelebA" → m.prepare_data =
      [DownloadCall.celebA m.data_dir "train" m.download "attr",
       DownloadCall.celebA m.data_dir "valid" m.download "attr",
       DownloadCall.celebA m.data_dir "test" m.download "attr"]) ∧
    (m.name = "Flowers102" → m.prepare_data =
      [DownloadCall.flowers102 m.data_dir "train" m.download,
       DownloadCall.flowers102 m.data_dir "val" m.download,
       DownloadCall.flowers102 m.data_dir "test" m.download]) := by
  unfold DataModule.prepare_data
  by_cases h1 : m.name = "MNIST" <;> by_cases h2 : m.name = "CelebA" <;>
    by_cases h3 : m.name = "Flowers102" <;> simp_all

/-- C8 witness: the MNIST configuration downloads its two MNIST sets, and a
configuration with an unknown name performs no action. -/
theorem C8_prepare_data_witness :
    mnistModule.prepare_data =
      [DownloadCall.mnist mnistModule.data_dir true mnistModule.download,
       DownloadCall.mnist mnistModule.data_dir false mnistModule.download] ∧
    unknownModule.prepare_data = [] :=
  ⟨(C8_prepare_data mnistModule).2.1 rfl,
   (C8_prepare_data unknownModule).1.mpr (by decide)⟩

/-- C9: `CenterCropMinXY` maps a `(c, h, w)` tensor with `h, w ≥ 1` to a
square `(c, min h w, min h w)` tensor whose pixels are the centered
`min h w × min h w` window at `top = (h - min h w) / 2`,
`left = (w - min h w) / 2`; the channel dimension is unchanged, and a square
image is returned identical to the input. -/
theorem C9_center_crop_min_xy (img : Tensor3)
    (hh : 1 ≤ img.height) (hw : 1 ≤ img.width) :
    (centerCropMinXY img).channels = img.channels ∧
    (centerCropMinXY img).height = min img.height img.width ∧
    (centerCropMinXY img).width = min img.height img.width ∧
    (∀ c y x, y < min img.height img.width → x < min img.height img.width →
      (centerCropMinXY img).pixel c y x =
        img.pixel c ((img.height - min img.height img.width) / 2 + y)
          ((img.width - min img.height img.width) / 2 + x)) ∧
    (img.height = img.width → centerCropMinXY img = img) := by
  have hmh : min img.height img.width ≤ img.height := Nat.min_le_left _ _
  have hmw : min img.height img.width ≤ img.width := Nat.min_le_right _ _
  refine ⟨rfl, ?_, ?_, fun c y x hy hx => rfl, fun hsq => ?_⟩
  · show sliceLen ((img.height - min img.height img.width) / 2)
        ((img.height - min img.height img.width) / 2 + min img.height img.width)
        img.height = min img.height img.width
    unfold sliceLen
    omega
  · show sliceLen ((img.width - min img.height img.width) / 2)
        ((img.width - min img.height img.width) / 2 + min img.height img.width)
        img.width = min img.height img.width
    unfold sliceLen
    omega
  · have h1 : min img.height img.width = img.height := by rw [hsq]; exact min_self _
    ext c y x
    · rfl
    · show sliceLen ((img.height - min img.height img.width) / 2)
          ((img.height - min img.height img.width) / 2 + min img.height img.width)
          img.height = img.height
      unfold sliceLen
      omega
    · show sliceLen ((img.width - min img.height img.width) / 2)
          ((img.width - min img.height img.width) / 2 + min img.height img.width)
          img.width = img.width
      unfold sliceLen
      omega
    · show img.pixel c ((img.height - min img.height img.width) / 2 + y)
          ((img.width - min img.height img.width) / 2 + x) = img.pixel c y x
      rw [h1, ← hsq]
      simp

/-- C9 witness: the concrete square sample image is returned unchanged. -/
theorem C9_center_crop_min_xy_witness : centerCropMinXY sampleImage = sampleImage :=
  (C9_center_crop_min_xy sampleImage (by decide) (by decide)).2.2.2.2 rfl
